import Mathlib

/-!
Verification of the ranking_sys asynchronous ranking service.

This file gives a shallow embedding, in Lean 4, of the core operations of the
repository: the task lifecycle store (`app/services/task_store.py`), the
ranking oracle client with its retry discipline
(`app/services/llm_service.py`), candidate-serialization truncation, the
batch evaluation engine (`app/services/batch_processor.py` and the
`_calculate_statistics` variant in `app/temporal/workflows.py`), the
scenario generator fallback (`app/services/prompt_generator.py`), and the
webhook notifier (`app/services/webhook_service.py`).

Effectful Python code is embedded as pure functions over explicit inputs:
the nondeterministic environment (oracle responses, HTTP outcomes, wall
clock) is passed in as data, exceptions become `Except`, and shared mutable
counters become explicit state threading.  Every definition follows the
Python source line by line; deviations of the source from the natural
language specification are recorded as counterexample theorems.
-/

namespace RankingSys

/-! ## Task lifecycle store (`app/services/task_store.py`)

`TaskStatus` mirrors `app.schemas.task.TaskStatus`; a task record keeps the
fields written by `TaskStore.create_task` that `update_status` can touch.
The in-memory fallback store (`self._memory_store`) is a dictionary from
task id to record, embedded as an association list.  `datetime.utcnow()`
timestamps are passed in as an opaque `now : String`; the result payload is
kept opaque as well. -/

inductive TaskStatus where
  | pending
  | processing
  | completed
  | failed
deriving DecidableEq, Repr

structure TaskRecord where
  status : TaskStatus
  result : Option String
  error : Option String
  completed_at : Option String
deriving DecidableEq, Repr

/-- `TaskStore.update_status` applied to one task record (the body of the
update once the record has been fetched): the status is overwritten
unconditionally, `result`/`error` are written only when passed, and
`completed_at` is stamped exactly on writes of a terminal status.  The
Python code performs no check of the record's current status. -/
def update_status_record (task : TaskRecord) (status : TaskStatus)
    (result : Option String) (error : Option String) (now : String) : TaskRecord :=
  { status := status
    result := match result with
      | some r => some r
      | none => task.result
    error := match error with
      | some e => some e
      | none => task.error
    completed_at :=
      if status = TaskStatus.completed ∨ status = TaskStatus.failed then some now
      else task.completed_at }

/-- The in-memory store of `TaskStore`: task id to record. -/
def MemoryStore := List (String × TaskRecord)

/-- `TaskStore.update_status` on the in-memory store: a missing task id is a
logged no-op; otherwise the fetched record is updated and written back under
the same key. -/
def update_status (store : MemoryStore) (task_id : String) (status : TaskStatus)
    (result : Option String) (error : Option String) (now : String) : MemoryStore :=
  match List.lookup task_id store with
  | none => store
  | some task =>
      (task_id, update_status_record task status result error now) ::
        (store.filter (fun p => p.1 ≠ task_id))

/-- Record as created by `TaskStore.create_task`. -/
def freshTaskRecord : TaskRecord :=
  { status := TaskStatus.pending, result := none, error := none, completed_at := none }

/-! ## Ranking oracle client (`app/services/llm_service.py`)

`LLMService.rank_candidates` is decorated with
`@retry(stop=stop_after_attempt(3), wait=wait_fixed(2),
retry=retry_if_exception_type((json.JSONDecodeError, ValueError, APIError)),
reraise=True)`.  The body performs the completion call, strips markdown
fences, runs `json.loads`, and reads `data["best_candidate_id"]` and
`data["reasoning"]`.  The embedding passes the outcome of each physical
completion call in as data: `oracle n` is what the `n`-th call produced
(a transport error, unparseable text, or a parsed JSON object).  The JSON
object is kept at the granularity the code reads it: a string-keyed field
map.  Exceptions are an explicit error type. -/

/-- Python exception kinds that can escape the body of `rank_candidates`.
`json.JSONDecodeError` is a `ValueError` subclass; `KeyError` (raised by
`data["best_candidate_id"]` / `data["reasoning"]` when the field is absent)
is not.  `LLMOutputError` is declared in `app/core/exceptions.py` but never
raised anywhere in the source. -/
inductive PyError where
  | jsonDecodeError
  | valueError
  | keyError
  | apiError
  | llmOutputError
deriving DecidableEq, Repr

/-- The tenacity retry predicate
`retry_if_exception_type((json.JSONDecodeError, ValueError, APIError))`:
`jsonDecodeError` and `valueError` match `ValueError`; `apiError` matches
`APIError`; `KeyError` and `LLMOutputError` match none of the three. -/
def isRetryable : PyError → Bool
  | .jsonDecodeError => true
  | .valueError => true
  | .apiError => true
  | .keyError => false
  | .llmOutputError => false

/-- A JSON object at the granularity `rank_candidates` reads it: the
string-valued fields that `data["..."]` can access. -/
structure OracleJson where
  fields : List (String × String)
deriving DecidableEq, Repr

/-- `app.schemas.ranking.RankingResponse` restricted to the fields computed
from the oracle output; `processing_time` is a wall-clock measurement
(`time.time() - start_time`), external nondeterminism not used by any claim
about the client. -/
structure RankingResponse where
  best_candidate_id : String
  reasoning : String
deriving DecidableEq, Repr

/-- Outcome of one physical completion call: a transport error raised by
the client library, or raw text, which `json.loads` either fails on
(`content none`) or parses into an object. -/
inductive AttemptOutcome where
  | apiError
  | content (parsed : Option OracleJson)
deriving DecidableEq, Repr

/-- One execution of the body of `rank_candidates`: transport failure
raises `APIError`; `json.loads` failure raises `JSONDecodeError`;
`data["best_candidate_id"]` and `data["reasoning"]` raise `KeyError` when
the field is absent; otherwise the `RankingResponse` is built from the two
fields verbatim. -/
def attemptCall (o : AttemptOutcome) : Except PyError RankingResponse :=
  match o with
  | .apiError => .error .apiError
  | .content none => .error .jsonDecodeError
  | .content (some j) =>
      match List.lookup "best_candidate_id" j.fields with
      | none => .error .keyError
      | some w =>
          match List.lookup "reasoning" j.fields with
          | none => .error .keyError
          | some r => .ok { best_candidate_id := w, reasoning := r }

/-- The tenacity retry loop: `attempt` is the 0-based index of the current
call, `fuel` the number of retries still allowed (`stop_after_attempt(3)`
gives initial fuel 2).  On a retryable exception with fuel left the loop
sleeps 2 seconds (`wait_fixed(2)`) and retries; with no fuel left,
`reraise=True` re-raises the last underlying exception itself; a
non-retryable exception propagates at once.  Returns the result, the number
of attempts made, and the sleeps performed. -/
def rankRetryAux (oracle : Nat → AttemptOutcome) :
    Nat → Nat → Except PyError RankingResponse × Nat × List Nat
  | attempt, fuel =>
    match attemptCall (oracle attempt) with
    | .ok r => (.ok r, attempt + 1, [])
    | .error e =>
        if isRetryable e then
          match fuel with
          | 0 => (.error e, attempt + 1, [])
          | fuel' + 1 =>
              match rankRetryAux oracle (attempt + 1) fuel' with
              | (r, n, waits) => (r, n, 2 :: waits)
        else (.error e, attempt + 1, [])

/-- `LLMService.rank_candidates` under its retry decorator:
`stop_after_attempt(3)` allows 3 attempts total. -/
def rank_candidates (oracle : Nat → AttemptOutcome) :
    Except PyError RankingResponse × Nat × List Nat :=
  rankRetryAux oracle 0 2

end RankingSys

namespace RankingSys

/-- C2: the retry behaviour of `rank_candidates` at the failing inputs.
An oracle whose output never parses exhausts all 3 attempts (sleeping 2
seconds between attempts) and re-raises the final `json.JSONDecodeError`
itself — `LLMOutputError` is never raised by the code, although its own
docstring in `app/core/exceptions.py` says it is "raised when LLM output
cannot be parsed or validated after retries".  An output that parses but
lacks `best_candidate_id` raises `KeyError`, which the retry predicate does
not match, so the call fails after a single attempt instead of being
retried.  The part of the claim that does hold: twice-failing decode
followed by a success returns successfully after exactly 3 attempts. -/
theorem rank_candidates_retry_divergence :
    rank_candidates (fun _ => AttemptOutcome.content none)
        = (Except.error PyError.jsonDecodeError, 3, [2, 2]) ∧
    rank_candidates (fun n =>
        if n < 2 then AttemptOutcome.content none
        else AttemptOutcome.content
          (some { fields := [("best_candidate_id", "A"), ("reasoning", "ok")] }))
        = (Except.ok { best_candidate_id := "A", reasoning := "ok" }, 3, [2, 2]) ∧
    rank_candidates (fun _ => AttemptOutcome.content (some { fields := [("reasoning", "r")] }))
        = (Except.error PyError.keyError, 1, []) := by
  refine ⟨rfl, rfl, rfl⟩

end RankingSys

namespace RankingSys

/-! ## Data model (`app/schemas/ranking.py`, `app/schemas/batch_ranking.py`)

`CandidateInfo` is an open attribute bag (`model_config = {"extra": "allow"}`)
with the structurally significant keys typed and the rest carried opaquely.
Python's `price: Optional[float]` is embedded as `Option Rat`; no claim
computes with the price, it only matters that operations leave it unchanged. -/

structure CandidateInfo where
  category : Option String
  price : Option Rat
  currency : Option String
  description : Option String
  extra : List (String × String)
deriving DecidableEq, Repr

structure Candidate where
  id : String
  name : String
  info : CandidateInfo
deriving DecidableEq, Repr

structure TestScenario where
  scenario_id : String
  description : String
deriving DecidableEq, Repr

/-- `app.schemas.batch_ranking.ScenarioResult`; `processing_time` is a
wall-clock duration, embedded as an exact rational. -/
structure ScenarioResult where
  scenario_id : String
  scenario_description : String
  winner_id : String
  reasoning : String
  processing_time : Rat
deriving DecidableEq, Repr

/-- `app.schemas.batch_ranking.BatchRankingResult`; the Python dicts
`results` and `win_rate` are embedded as association lists (first match
wins on lookup, no duplicate keys are ever produced). -/
structure BatchRankingResult where
  total_tests : Nat
  results : List (String × Nat)
  win_rate : List (String × Rat)
  scenario_details : List ScenarioResult
deriving DecidableEq, Repr

/-- A `CandidateInfo` with no populated fields (all claims that need a
concrete candidate use this). -/
def emptyInfo : CandidateInfo :=
  { category := none, price := none, currency := some "CNY",
    description := none, extra := [] }

end RankingSys

namespace RankingSys

/-- If one execution of the `rank_candidates` body returns a decoded
response, that response is built verbatim from the two looked-up fields of
the parsed oracle output. -/
theorem attemptCall_ok_decoded {o : AttemptOutcome} {resp : RankingResponse}
    (h : attemptCall o = Except.ok resp) :
    ∃ j : OracleJson, o = AttemptOutcome.content (some j) ∧
      List.lookup "best_candidate_id" j.fields = some resp.best_candidate_id ∧
      List.lookup "reasoning" j.fields = some resp.reasoning := by
  cases o with
  | apiError => simp [attemptCall] at h
  | content p =>
    cases p with
    | none => simp [attemptCall] at h
    | some j =>
      refine ⟨j, rfl, ?_⟩
      simp only [attemptCall] at h
      cases hw : List.lookup "best_candidate_id" j.fields with
      | none => rw [hw] at h; simp at h
      | some w =>
        rw [hw] at h
        cases hr : List.lookup "reasoning" j.fields with
        | none => rw [hr] at h; simp at h
        | some r =>
          rw [hr] at h
          simp only [Except.ok.injEq] at h
          subst h
          exact ⟨rfl, rfl⟩

/-- Unfolding equation of the retry loop: a successful attempt stops it. -/
theorem rankRetryAux_eq_ok (oracle : Nat → AttemptOutcome) (attempt fuel : Nat)
    (r : RankingResponse) (h : attemptCall (oracle attempt) = Except.ok r) :
    rankRetryAux oracle attempt fuel = (Except.ok r, attempt + 1, []) := by
  rw [rankRetryAux, h]

/-- Unfolding equation of the retry loop: a retryable failure with fuel
left sleeps 2 seconds and retries. -/
theorem rankRetryAux_eq_retry (oracle : Nat → AttemptOutcome) (attempt fuel : Nat)
    (e : PyError) (h : attemptCall (oracle attempt) = Except.error e)
    (hre : isRetryable e = true) :
    rankRetryAux oracle attempt (fuel + 1)
      = (match rankRetryAux oracle (attempt + 1) fuel with
         | (r, n, waits) => (r, n, 2 :: waits)) := by
  rw [rankRetryAux, h]
  simp [hre]

/-- Unfolding equation of the retry loop: a retryable failure with no fuel
left re-raises the last underlying exception. -/
theorem rankRetryAux_eq_exhausted (oracle : Nat → AttemptOutcome) (attempt : Nat)
    (e : PyError) (h : attemptCall (oracle attempt) = Except.error e) :
    rankRetryAux oracle attempt 0 = (Except.error e, attempt + 1, []) := by
  rw [rankRetryAux, h]
  by_cases hre : isRetryable e <;> simp [hre]

/-- Unfolding equation of the retry loop: a non-retryable exception
propagates at once. -/
theorem rankRetryAux_eq_noretry (oracle : Nat → AttemptOutcome) (attempt fuel : Nat)
    (e : PyError) (h : attemptCall (oracle attempt) = Except.error e)
    (hre : isRetryable e = false) :
    rankRetryAux oracle attempt fuel = (Except.error e, attempt + 1, []) := by
  rw [rankRetryAux, h]
  simp [hre]

/-- The retry loop returns a successful response only by decoding the
output of the attempt it stopped at. -/
theorem rankRetryAux_ok_decoded (oracle : Nat → AttemptOutcome) :
    ∀ fuel attempt resp n waits,
      rankRetryAux oracle attempt fuel = (Except.ok resp, n, waits) →
      ∃ j : OracleJson, oracle (n - 1) = AttemptOutcome.content (some j) ∧
        List.lookup "best_candidate_id" j.fields = some resp.best_candidate_id ∧
        List.lookup "reasoning" j.fields = some resp.reasoning := by
  intro fuel
  induction fuel with
  | zero =>
    intro attempt resp n waits h
    cases hcall : attemptCall (oracle attempt) with
    | ok r =>
      rw [rankRetryAux_eq_ok oracle attempt 0 r hcall] at h
      simp only [Prod.mk.injEq, Except.ok.injEq] at h
      obtain ⟨h1, h2, -⟩ := h
      subst h1; subst h2
      simpa using attemptCall_ok_decoded hcall
    | error e =>
      rw [rankRetryAux_eq_exhausted oracle attempt e hcall] at h
      simp at h
  | succ fuel ih =>
    intro attempt resp n waits h
    cases hcall : attemptCall (oracle attempt) with
    | ok r =>
      rw [rankRetryAux_eq_ok oracle attempt (fuel + 1) r hcall] at h
      simp only [Prod.mk.injEq, Except.ok.injEq] at h
      obtain ⟨h1, h2, -⟩ := h
      subst h1; subst h2
      simpa using attemptCall_ok_decoded hcall
    | error e =>
      by_cases hre : isRetryable e
      · rw [rankRetryAux_eq_retry oracle attempt fuel e hcall hre] at h
        rcases hx : rankRetryAux oracle (attempt + 1) fuel with ⟨r1, n1, w1⟩
        rw [hx] at h
        simp only [Prod.mk.injEq] at h
        obtain ⟨h1, h2, -⟩ := h
        subst h1; subst h2
        exact ih (attempt + 1) resp n1 w1 hx
      · rw [rankRetryAux_eq_noretry oracle attempt (fuel + 1) e hcall
          (Bool.not_eq_true _ ▸ hre)] at h
        simp at h

/-- C9 (amended): the winner id returned by the oracle client is exactly
the `best_candidate_id` field decoded from the oracle's output — the client
performs no membership check against the input candidate set, so the
contract "winner id is one of the candidate ids" holds exactly when the
oracle itself named a candidate id. -/
theorem rank_candidates_winner_verbatim (oracle : Nat → AttemptOutcome)
    (resp : RankingResponse) (n : Nat) (waits : List Nat)
    (h : rank_candidates oracle = (Except.ok resp, n, waits)) :
    ∃ j : OracleJson, oracle (n - 1) = AttemptOutcome.content (some j) ∧
      List.lookup "best_candidate_id" j.fields = some resp.best_candidate_id ∧
      List.lookup "reasoning" j.fields = some resp.reasoning :=
  rankRetryAux_ok_decoded oracle 2 0 resp n waits h

/-- Witness for C9: a single-attempt success, decoded verbatim. -/
theorem rank_candidates_winner_verbatim_witness :
    ∃ j : OracleJson,
      (fun _ : Nat => AttemptOutcome.content
          (some { fields := [("best_candidate_id", "A"), ("reasoning", "r")] })) (1 - 1)
        = AttemptOutcome.content (some j) ∧
      List.lookup "best_candidate_id" j.fields
        = some (RankingResponse.mk "A" "r").best_candidate_id ∧
      List.lookup "reasoning" j.fields = some (RankingResponse.mk "A" "r").reasoning :=
  rank_candidates_winner_verbatim
    (fun _ : Nat => AttemptOutcome.content
        (some { fields := [("best_candidate_id", "A"), ("reasoning", "r")] }))
    (RankingResponse.mk "A" "r") 1 [] rfl

/-- C9 (counterexample): with candidates `A` and `B`, an oracle output
naming the outside id `"Z"` is decoded and returned as a valid decision —
`rank_candidates` does not reject a winner outside the candidate set. -/
theorem rank_candidates_accepts_outside_winner :
    (rank_candidates (fun _ => AttemptOutcome.content
        (some { fields := [("best_candidate_id", "Z"), ("reasoning", "r")] }))).1
      = Except.ok { best_candidate_id := "Z", reasoning := "r" } ∧
    "Z" ∉ ([⟨"A", "Alpha", emptyInfo⟩, ⟨"B", "Beta", emptyInfo⟩] : List Candidate).map
        Candidate.id := by
  refine ⟨rfl, by decide⟩

end RankingSys

namespace RankingSys

/-! ## Batch evaluation engine (`app/services/batch_processor.py`)

`run_batch_ranking` fans one `rank_candidates` call per scenario out under
an `asyncio.Semaphore(3)`, shares one `completed_count` list cell guarded by
an `asyncio.Lock`, and fans results back in with `asyncio.gather` (which
preserves input order).  The embedding passes the per-scenario oracle
behaviour in as `llm : TestScenario → Except String RankingResponse`
(`Except.error e` meaning the awaited call raised an exception whose
`str()` is `e` — including `rank_candidates` exhausting its retries) and
the wall-clock measurement around the call as `elapsed`.  The lock makes
increment-plus-callback one atomic step, so a batch execution is a sequence
of such steps; the fold below ranges over that sequence (one step per
scenario when the callback does not raise), and the theorems quantify over
every scenario order.  The progress callback itself may raise; its
behaviour is `cb : Nat → Nat → Except String Unit`.  A `progress_callback`
of `None` behaves exactly as the callback that does nothing and never
raises. -/

/-- One `counter[key] += 1` on a `collections.Counter`, embedded on an
association list: increment the existing entry or append a fresh entry with
count 1. -/
def counterAdd (m : List (String × Nat)) (k : String) : List (String × Nat) :=
  match m with
  | [] => [(k, 1)]
  | (k0, v) :: rest => if k0 = k then (k0, v + 1) :: rest else (k0, v) :: counterAdd rest k

/-- The counter built by `_calculate_statistics`: one increment per result
whose `winner_id` is not `"error"`.  `dict(counter)` is this association
list itself. -/
def buildCounter (results : List ScenarioResult) : List (String × Nat) :=
  results.foldl (fun m r => if r.winner_id = "error" then m else counterAdd m r.winner_id) []

/-- `counter.get(key, 0)`. -/
def counterGet (m : List (String × Nat)) (k : String) : Nat :=
  (List.lookup k m).getD 0

/-- Number of non-error wins of candidate id `k`, i.e.
`counter.get(k, 0)` over the counter of `results`. -/
def winCount (results : List ScenarioResult) (k : String) : Nat :=
  counterGet (buildCounter results) k

/-- `BatchProcessorService._calculate_statistics`: `results := dict(counter)`
holds only ids incremented at least once; `win_rate` is filled for every
candidate with `win_count / total if total > 0 else 0`. -/
def calculate_statistics (results : List ScenarioResult) (candidates : List Candidate) :
    BatchRankingResult :=
  { total_tests := results.length
    results := buildCounter results
    win_rate := candidates.map (fun c =>
      (c.id, if 0 < results.length
             then (winCount results c.id : Rat) / (results.length : Rat)
             else 0))
    scenario_details := results }

/-- `BatchRankingWorkflow._calculate_statistics`
(`app/temporal/workflows.py`): identical except that `results_count` is
also filled for every candidate (`results_count[candidate.id] = win_count`),
zero included. -/
def calculate_statistics_workflow (results : List ScenarioResult) (candidates : List Candidate) :
    BatchRankingResult :=
  { total_tests := results.length
    results := candidates.map (fun c => (c.id, winCount results c.id))
    win_rate := candidates.map (fun c =>
      (c.id, if 0 < results.length
             then (winCount results c.id : Rat) / (results.length : Rat)
             else 0))
    scenario_details := results }

/-- The `ScenarioResult` built on the success path of `process_scenario`. -/
def okResult (s : TestScenario) (resp : RankingResponse) (t : Rat) : ScenarioResult :=
  { scenario_id := s.scenario_id, scenario_description := s.description,
    winner_id := resp.best_candidate_id, reasoning := resp.reasoning,
    processing_time := t }

/-- The `ScenarioResult` built in the `except` handler of
`process_scenario`: winner `"error"`, reasoning `f"Error: {str(e)}"`,
processing time 0. -/
def errResult (s : TestScenario) (e : String) : ScenarioResult :=
  { scenario_id := s.scenario_id, scenario_description := s.description,
    winner_id := "error", reasoning := "Error: " ++ e, processing_time := 0 }

/-- The inner coroutine `process_scenario` of `run_batch_ranking`,
threading the shared `completed_count` cell and recording every progress
callback invocation as a `(completed_count, total)` pair.  Control flow of
the source: the whole body, progress update included, sits in a `try`; on
any exception (from the oracle call or from the callback itself) the
`except` handler increments the counter again, invokes the callback again,
and returns the error decision — an exception raised by that second
callback invocation escapes the coroutine. -/
def process_scenario (llm : TestScenario → Except String RankingResponse)
    (elapsed : TestScenario → Rat) (cb : Nat → Nat → Except String Unit)
    (total : Nat) (s : TestScenario) (counter : Nat) :
    Except String ScenarioResult × Nat × List (Nat × Nat) :=
  match llm s with
  | .ok resp =>
      match cb (counter + 1) total with
      | .ok _ => (.ok (okResult s resp (elapsed s)), counter + 1, [(counter + 1, total)])
      | .error e =>
          match cb (counter + 1 + 1) total with
          | .ok _ => (.ok (errResult s e), counter + 1 + 1,
              [(counter + 1, total), (counter + 1 + 1, total)])
          | .error e2 => (.error e2, counter + 1 + 1,
              [(counter + 1, total), (counter + 1 + 1, total)])
  | .error e =>
      match cb (counter + 1) total with
      | .ok _ => (.ok (errResult s e), counter + 1, [(counter + 1, total)])
      | .error e2 => (.error e2, counter + 1, [(counter + 1, total)])

/-- The fan-out/fan-in over all scenarios: one `process_scenario` step per
scenario, threading the shared counter, concatenating the callback traces,
and collecting the decisions in input order (as `asyncio.gather` does).  An
exception escaping a coroutine propagates out of `gather`; no claim
exercises that branch. -/
def runScenarios (llm : TestScenario → Except String RankingResponse)
    (elapsed : TestScenario → Rat) (cb : Nat → Nat → Except String Unit)
    (total : Nat) :
    List TestScenario → Nat → Except String (List ScenarioResult) × Nat × List (Nat × Nat)
  | [], counter => (.ok [], counter, [])
  | s :: rest, counter =>
      match process_scenario llm elapsed cb total s counter with
      | (.ok r, c1, tr1) =>
          match runScenarios llm elapsed cb total rest c1 with
          | (.ok rs, c2, tr2) => (.ok (r :: rs), c2, tr1 ++ tr2)
          | (.error e, c2, tr2) => (.error e, c2, tr1 ++ tr2)
      | (.error e, c1, tr1) => (.error e, c1, tr1)

/-- `BatchProcessorService.run_batch_ranking`: run every scenario (the
filter of `None` results never removes anything — the coroutine always
returns a `ScenarioResult` when it does not raise), then aggregate with
`_calculate_statistics`.  Returns the outcome together with the full
progress-callback trace. -/
def run_batch_ranking (candidates : List Candidate)
    (llm : TestScenario → Except String RankingResponse)
    (elapsed : TestScenario → Rat) (cb : Nat → Nat → Except String Unit)
    (scenarios : List TestScenario) :
    Except String BatchRankingResult × List (Nat × Nat) :=
  match runScenarios llm elapsed cb scenarios.length scenarios 0 with
  | (.ok results, _, tr) => (.ok (calculate_statistics results candidates), tr)
  | (.error e, _, tr) => (.error e, tr)

/-- The decision `process_scenario` records for scenario `s` when the
callback does not interfere: the decoded decision on oracle success, the
error decision on oracle failure. -/
def pureResult (llm : TestScenario → Except String RankingResponse)
    (elapsed : TestScenario → Rat) (s : TestScenario) : ScenarioResult :=
  match llm s with
  | .ok resp => okResult s resp (elapsed s)
  | .error e => errResult s e

/-- The progress trace of a run of `k` atomic completion steps starting
from counter value `counter`: each step reports the incremented counter
together with the constant total. -/
def expectedTrace (total : Nat) : Nat → Nat → List (Nat × Nat)
  | _, 0 => []
  | counter, k + 1 => (counter + 1, total) :: expectedTrace total (counter + 1) k

theorem expectedTrace_eq_range (total : Nat) :
    ∀ (k counter : Nat), expectedTrace total counter k
      = (List.range k).map (fun i => (counter + i + 1, total)) := by
  intro k
  induction k with
  | zero => intro counter; simp [expectedTrace]
  | succ k ih =>
    intro counter
    rw [List.range_succ_eq_map, expectedTrace, ih (counter + 1)]
    simp only [List.map_cons, List.map_map]
    congr 1
    apply List.map_congr_left
    intro i _
    have h1 : counter + 1 + i + 1 = counter + (i + 1) + 1 := by omega
    simp [Function.comp, h1]

/-- A scenario step with a callback that never raises performs exactly one
increment, one callback invocation, and records the failure-absorbing
decision. -/
theorem process_scenario_of_cb_ok (llm : TestScenario → Except String RankingResponse)
    (elapsed : TestScenario → Rat) (cb : Nat → Nat → Except String Unit)
    (total : Nat) (s : TestScenario) (counter : Nat)
    (hcb : ∀ a b, cb a b = Except.ok ()) :
    process_scenario llm elapsed cb total s counter
      = (Except.ok (pureResult llm elapsed s), counter + 1, [(counter + 1, total)]) := by
  unfold process_scenario pureResult
  cases hs : llm s with
  | ok resp => rw [hcb]
  | error e => rw [hcb]

/-- With a callback that never raises, a batch run evaluates every scenario
in order, increments the counter once per scenario, and produces the
canonical progress trace. -/
theorem runScenarios_of_cb_ok (llm : TestScenario → Except String RankingResponse)
    (elapsed : TestScenario → Rat) (cb : Nat → Nat → Except String Unit)
    (total : Nat) (hcb : ∀ a b, cb a b = Except.ok ()) :
    ∀ (scenarios : List TestScenario) (counter : Nat),
      runScenarios llm elapsed cb total scenarios counter
        = (Except.ok (scenarios.map (pureResult llm elapsed)),
           counter + scenarios.length,
           expectedTrace total counter scenarios.length) := by
  intro scenarios
  induction scenarios with
  | nil => intro counter; simp [runScenarios, expectedTrace]
  | cons s rest ih =>
    intro counter
    rw [runScenarios, process_scenario_of_cb_ok llm elapsed cb total s counter hcb]
    dsimp only
    rw [ih (counter + 1)]
    simp only [List.map_cons, List.length_cons, expectedTrace, List.cons_append,
      List.nil_append]
    have h1 : counter + 1 + rest.length = counter + (rest.length + 1) := by omega
    rw [h1]

/-- Looking a member's id up in a map keyed by candidate id yields the
value computed from that id (no uniqueness of ids is needed, because the
value is a function of the id alone). -/
theorem lookup_map_by_id {β : Type} (f : String → β) :
    ∀ (candidates : List Candidate) (c : Candidate), c ∈ candidates →
      List.lookup c.id (candidates.map (fun x => (x.id, f x.id))) = some (f c.id) := by
  intro candidates
  induction candidates with
  | nil => intro c hc; cases hc
  | cons x xs ih =>
    intro c hc
    rw [List.map_cons]
    cases hbe : (c.id == x.id) with
    | true =>
      have hid : c.id = x.id := eq_of_beq hbe
      simp [List.lookup, hbe, hid]
    | false =>
      have hne : c.id ≠ x.id := fun h => by simp [h] at hbe
      rcases List.mem_cons.mp hc with rfl | hmem
      · exact absurd rfl hne
      · simp only [List.lookup, hbe]
        exact ih c hmem

/-- Every entry of a counter after one increment still has a positive
count. -/
theorem counterAdd_pos :
    ∀ (m : List (String × Nat)) (k : String), (∀ p ∈ m, 1 ≤ p.2) →
      ∀ p ∈ counterAdd m k, 1 ≤ p.2 := by
  intro m
  induction m with
  | nil =>
    intro k _ p hp
    rw [counterAdd] at hp
    simp at hp
    simp [hp]
  | cons q rest ih =>
    intro k hm p hp
    obtain ⟨k0, v⟩ := q
    rw [counterAdd] at hp
    by_cases hq : k0 = k
    · rw [if_pos hq] at hp
      rcases List.mem_cons.mp hp with rfl | hmem
      · have := hm (k0, v) (List.mem_cons_self _ _)
        exact Nat.le_succ_of_le this
      · exact hm p (List.mem_cons_of_mem _ hmem)
    · rw [if_neg hq] at hp
      rcases List.mem_cons.mp hp with rfl | hmem
      · exact hm (k0, v) (List.mem_cons_self _ _)
      · exact ih k (fun p hp => hm p (List.mem_cons_of_mem _ hp)) p hmem

/-- Every entry of the win counter has a positive count: `dict(counter)`
holds winners only. -/
theorem buildCounter_pos (results : List ScenarioResult) :
    ∀ p ∈ buildCounter results, 1 ≤ p.2 := by
  suffices h : ∀ (rs : List ScenarioResult) (acc : List (String × Nat)),
      (∀ p ∈ acc, 1 ≤ p.2) →
      ∀ p ∈ rs.foldl
          (fun m r => if r.winner_id = "error" then m else counterAdd m r.winner_id) acc,
        1 ≤ p.2 by
    intro p hp
    exact h results [] (by simp) p hp
  intro rs
  induction rs with
  | nil => intro acc hacc p hp; exact hacc p hp
  | cons r rest ih =>
    intro acc hacc p hp
    rw [List.foldl_cons] at hp
    by_cases hw : r.winner_id = "error"
    · rw [if_pos hw] at hp
      exact ih acc hacc p hp
    · rw [if_neg hw] at hp
      exact ih _ (counterAdd_pos acc _ hacc) p hp

/-- A successful association-list lookup exhibits a member. -/
theorem lookup_eq_some_mem {β : Type} (k : String) (v : β) :
    ∀ m : List (String × β), List.lookup k m = some v → (k, v) ∈ m := by
  intro m
  induction m with
  | nil => intro h; simp [List.lookup] at h
  | cons q rest ih =>
    intro h
    obtain ⟨k0, v0⟩ := q
    cases hbe : (k == k0) with
    | true =>
      rw [List.lookup, hbe] at h
      simp at h
      have hk : k = k0 := eq_of_beq hbe
      subst hk; subst h
      exact List.mem_cons_self _ _
    | false =>
      rw [List.lookup, hbe] at h
      exact List.mem_cons_of_mem _ (ih h)

/-- A candidate with zero wins has no entry at all in the service's win
counter. -/
theorem winCount_zero_lookup_none (results : List ScenarioResult) (k : String)
    (h : winCount results k = 0) :
    List.lookup k (buildCounter results) = none := by
  cases hl : List.lookup k (buildCounter results) with
  | none => rfl
  | some v =>
    have hv := buildCounter_pos results (k, v) (lookup_eq_some_mem k v _ hl)
    unfold winCount counterGet at h
    rw [hl] at h
    simp at h
    omega

end RankingSys

namespace RankingSys

/-- C3 (amended): every submitted candidate id is a key of the win-rate map
in both the in-process and the workflow aggregation, with rate 0 when the
candidate won no scenario; the workflow aggregation also zero-fills the
per-candidate count map, but the in-process service's count map
(`dict(counter)`) holds exactly the ids that won at least one non-error
scenario — a zero-win candidate is absent from it. -/
theorem statistics_maps_coverage (results : List ScenarioResult)
    (candidates : List Candidate) (c : Candidate) (hc : c ∈ candidates) :
    List.lookup c.id (calculate_statistics results candidates).win_rate
      = some (if 0 < results.length
              then (winCount results c.id : Rat) / (results.length : Rat) else 0) ∧
    List.lookup c.id (calculate_statistics_workflow results candidates).win_rate
      = some (if 0 < results.length
              then (winCount results c.id : Rat) / (results.length : Rat) else 0) ∧
    List.lookup c.id (calculate_statistics_workflow results candidates).results
      = some (winCount results c.id) ∧
    (winCount results c.id = 0 →
      List.lookup c.id (calculate_statistics results candidates).win_rate = some 0) ∧
    (winCount results c.id = 0 →
      List.lookup c.id (calculate_statistics results candidates).results = none) := by
  have hrate : List.lookup c.id (calculate_statistics results candidates).win_rate
      = some (if 0 < results.length
              then (winCount results c.id : Rat) / (results.length : Rat) else 0) :=
    lookup_map_by_id
      (fun k => if 0 < results.length
                then (winCount results k : Rat) / (results.length : Rat) else 0)
      candidates c hc
  have hcount : List.lookup c.id (calculate_statistics_workflow results candidates).results
      = some (winCount results c.id) :=
    lookup_map_by_id (fun k => winCount results k) candidates c hc
  refine ⟨hrate, hrate, hcount, ?_, ?_⟩
  · intro h0
    rw [hrate, h0]
    by_cases hl : 0 < results.length <;> simp [hl]
  · intro h0
    exact winCount_zero_lookup_none results c.id h0

/-- Witness for C3: candidates A and B, three scenarios all won by A; B is
covered by the win-rate maps at rate 0, zero-filled in the workflow count
map, and absent from the service count map. -/
theorem statistics_maps_coverage_witness :
    List.lookup "B" (calculate_statistics
        [⟨"s1", "d1", "A", "r", 1⟩, ⟨"s2", "d2", "A", "r", 1⟩, ⟨"s3", "d3", "A", "r", 1⟩]
        [⟨"A", "Alpha", emptyInfo⟩, ⟨"B", "Beta", emptyInfo⟩]).win_rate
      = some (if 0 < ([⟨"s1", "d1", "A", "r", 1⟩, ⟨"s2", "d2", "A", "r", 1⟩,
                       ⟨"s3", "d3", "A", "r", 1⟩] : List ScenarioResult).length
              then (winCount [⟨"s1", "d1", "A", "r", 1⟩, ⟨"s2", "d2", "A", "r", 1⟩,
                       ⟨"s3", "d3", "A", "r", 1⟩] "B" : Rat) / 3 else 0) ∧
    List.lookup "B" (calculate_statistics_workflow
        [⟨"s1", "d1", "A", "r", 1⟩, ⟨"s2", "d2", "A", "r", 1⟩, ⟨"s3", "d3", "A", "r", 1⟩]
        [⟨"A", "Alpha", emptyInfo⟩, ⟨"B", "Beta", emptyInfo⟩]).win_rate
      = some (if 0 < ([⟨"s1", "d1", "A", "r", 1⟩, ⟨"s2", "d2", "A", "r", 1⟩,
                       ⟨"s3", "d3", "A", "r", 1⟩] : List ScenarioResult).length
              then (winCount [⟨"s1", "d1", "A", "r", 1⟩, ⟨"s2", "d2", "A", "r", 1⟩,
                       ⟨"s3", "d3", "A", "r", 1⟩] "B" : Rat) / 3 else 0) ∧
    List.lookup "B" (calculate_statistics_workflow
        [⟨"s1", "d1", "A", "r", 1⟩, ⟨"s2", "d2", "A", "r", 1⟩, ⟨"s3", "d3", "A", "r", 1⟩]
        [⟨"A", "Alpha", emptyInfo⟩, ⟨"B", "Beta", emptyInfo⟩]).results
      = some (winCount [⟨"s1", "d1", "A", "r", 1⟩, ⟨"s2", "d2", "A", "r", 1⟩,
                       ⟨"s3", "d3", "A", "r", 1⟩] "B") ∧
    (winCount [⟨"s1", "d1", "A", "r", 1⟩, ⟨"s2", "d2", "A", "r", 1⟩,
        ⟨"s3", "d3", "A", "r", 1⟩] "B" = 0 →
      List.lookup "B" (calculate_statistics
        [⟨"s1", "d1", "A", "r", 1⟩, ⟨"s2", "d2", "A", "r", 1⟩, ⟨"s3", "d3", "A", "r", 1⟩]
        [⟨"A", "Alpha", emptyInfo⟩, ⟨"B", "Beta", emptyInfo⟩]).win_rate = some 0) ∧
    (winCount [⟨"s1", "d1", "A", "r", 1⟩, ⟨"s2", "d2", "A", "r", 1⟩,
        ⟨"s3", "d3", "A", "r", 1⟩] "B" = 0 →
      List.lookup "B" (calculate_statistics
        [⟨"s1", "d1", "A", "r", 1⟩, ⟨"s2", "d2", "A", "r", 1⟩, ⟨"s3", "d3", "A", "r", 1⟩]
        [⟨"A", "Alpha", emptyInfo⟩, ⟨"B", "Beta", emptyInfo⟩]).results = none) :=
  statistics_maps_coverage _ _ ⟨"B", "Beta", emptyInfo⟩ (by simp)

/-- C3 (counterexample): with candidates A and B and three decisions all
won by A, the service's count map is `{"A": 3}` — the zero-win candidate B
is a key of the win-rate map but not of the count map, refuting the claim
that both maps are zero-filled for every candidate. -/
theorem calculate_statistics_counts_winners_only :
    (calculate_statistics
        [⟨"s1", "d1", "A", "r", 1⟩, ⟨"s2", "d2", "A", "r", 1⟩, ⟨"s3", "d3", "A", "r", 1⟩]
        [⟨"A", "Alpha", emptyInfo⟩, ⟨"B", "Beta", emptyInfo⟩]).results = [("A", 3)] ∧
    List.lookup "B" (calculate_statistics
        [⟨"s1", "d1", "A", "r", 1⟩, ⟨"s2", "d2", "A", "r", 1⟩, ⟨"s3", "d3", "A", "r", 1⟩]
        [⟨"A", "Alpha", emptyInfo⟩, ⟨"B", "Beta", emptyInfo⟩]).results = none ∧
    (List.lookup "B" (calculate_statistics
        [⟨"s1", "d1", "A", "r", 1⟩, ⟨"s2", "d2", "A", "r", 1⟩, ⟨"s3", "d3", "A", "r", 1⟩]
        [⟨"A", "Alpha", emptyInfo⟩, ⟨"B", "Beta", emptyInfo⟩]).win_rate).isSome = true := by
  refine ⟨rfl, rfl, rfl⟩

/-- C4: a batch run over any candidate and scenario list produces exactly
one decision per input scenario, never aborts, and absorbs every
per-scenario oracle failure into a decision with winner `"error"`, the
captured error in the reasoning, and processing time 0.  The hypothesis
says the injected progress callback never raises (including the case of no
callback at all). -/
theorem run_batch_one_decision_per_scenario (candidates : List Candidate)
    (llm : TestScenario → Except String RankingResponse)
    (elapsed : TestScenario → Rat) (cb : Nat → Nat → Except String Unit)
    (scenarios : List TestScenario)
    (hcb : ∀ a b, cb a b = Except.ok ()) :
    ∃ result : BatchRankingResult,
      (run_batch_ranking candidates llm elapsed cb scenarios).1 = Except.ok result ∧
      result.scenario_details.length = scenarios.length ∧
      ∀ s ∈ scenarios, ∀ e, llm s = Except.error e →
        ({ scenario_id := s.scenario_id, scenario_description := s.description,
           winner_id := "error", reasoning := "Error: " ++ e,
           processing_time := 0 } : ScenarioResult) ∈ result.scenario_details := by
  refine ⟨calculate_statistics (scenarios.map (pureResult llm elapsed)) candidates,
    ?_, ?_, ?_⟩
  · unfold run_batch_ranking
    rw [runScenarios_of_cb_ok llm elapsed cb scenarios.length hcb scenarios 0]
  · simp [calculate_statistics]
  · intro s hs e he
    have hpure : pureResult llm elapsed s = errResult s e := by
      unfold pureResult
      rw [he]
    have hmem : pureResult llm elapsed s ∈ scenarios.map (pureResult llm elapsed) :=
      List.mem_map_of_mem _ hs
    rw [hpure] at hmem
    exact hmem

/-- Witness for C4: one scenario whose oracle call raises `boom`; the batch
completes with one decision, the error decision for that scenario. -/
theorem run_batch_one_decision_per_scenario_witness :
    (∀ a b : Nat, (fun _ _ : Nat => (Except.ok () : Except String Unit)) a b
        = Except.ok ()) ∧
    (∃ result : BatchRankingResult,
      (run_batch_ranking [⟨"A", "Alpha", emptyInfo⟩]
          (fun _ => Except.error "boom") (fun _ => 0)
          (fun _ _ : Nat => (Except.ok () : Except String Unit))
          [⟨"s1", "need"⟩]).1 = Except.ok result ∧
      result.scenario_details.length = [(⟨"s1", "need"⟩ : TestScenario)].length ∧
      ∀ s ∈ [(⟨"s1", "need"⟩ : TestScenario)], ∀ e,
        (fun _ : TestScenario => (Except.error "boom" : Except String RankingResponse)) s
          = Except.error e →
        ({ scenario_id := s.scenario_id, scenario_description := s.description,
           winner_id := "error", reasoning := "Error: " ++ e,
           processing_time := 0 } : ScenarioResult) ∈ result.scenario_details) :=
  ⟨fun _ _ => rfl,
   run_batch_one_decision_per_scenario [⟨"A", "Alpha", emptyInfo⟩]
     (fun _ => Except.error "boom") (fun _ => 0)
     (fun _ _ : Nat => (Except.ok () : Except String Unit))
     [⟨"s1", "need"⟩] (fun _ _ => rfl)⟩

/-- C5: for a batch of `N` scenarios with an injected progress callback
(that itself returns normally), the callback is invoked exactly `N` times,
its first argument increases by exactly 1 on each call starting from 1, and
its second argument is constantly `N`.  The lock around the increment makes
increment-plus-callback one atomic step, so counter updates are serialized;
the trace below is the same for every completion order of the concurrently
evaluated scenarios, since the fold is quantified over arbitrary scenario
lists. -/
theorem progress_callback_trace (candidates : List Candidate)
    (llm : TestScenario → Except String RankingResponse)
    (elapsed : TestScenario → Rat) (cb : Nat → Nat → Except String Unit)
    (scenarios : List TestScenario)
    (hcb : ∀ a b, cb a b = Except.ok ()) :
    (run_batch_ranking candidates llm elapsed cb scenarios).2
      = (List.range scenarios.length).map (fun i => (i + 1, scenarios.length)) := by
  unfold run_batch_ranking
  rw [runScenarios_of_cb_ok llm elapsed cb scenarios.length hcb scenarios 0]
  dsimp only
  rw [expectedTrace_eq_range]
  simp

/-- Witness for C5: two scenarios, trace `[(1, 2), (2, 2)]`. -/
theorem progress_callback_trace_witness :
    (∀ a b : Nat, (fun _ _ : Nat => (Except.ok () : Except String Unit)) a b
        = Except.ok ()) ∧
    (run_batch_ranking ([] : List Candidate)
        (fun _ => Except.error "x") (fun _ => 0)
        (fun _ _ : Nat => (Except.ok () : Except String Unit))
        [⟨"s1", "d1"⟩, ⟨"s2", "d2"⟩]).2
      = (List.range ([(⟨"s1", "d1"⟩ : TestScenario), ⟨"s2", "d2"⟩]).length).map
          (fun i => (i + 1, ([(⟨"s1", "d1"⟩ : TestScenario), ⟨"s2", "d2"⟩]).length)) :=
  ⟨fun _ _ => rfl,
   progress_callback_trace [] (fun _ => Except.error "x") (fun _ => 0)
     (fun _ _ : Nat => (Except.ok () : Except String Unit))
     [⟨"s1", "d1"⟩, ⟨"s2", "d2"⟩] (fun _ _ => rfl)⟩

/-- C10: if the progress callback raises on a scenario whose oracle call
succeeded, the scenario's own `except` handler catches it: the shared
counter is incremented a second time for the same scenario, the callback is
invoked again with the larger count, and the scenario is recorded as an
`"error"` decision with processing time 0 despite the successful oracle
call. -/
theorem callback_failure_double_increment
    (llm : TestScenario → Except String RankingResponse)
    (elapsed : TestScenario → Rat) (cb : Nat → Nat → Except String Unit)
    (total : Nat) (s : TestScenario) (counter : Nat) (resp : RankingResponse) (e : String)
    (hllm : llm s = Except.ok resp)
    (hcb1 : cb (counter + 1) total = Except.error e)
    (hcb2 : cb (counter + 1 + 1) total = Except.ok ()) :
    process_scenario llm elapsed cb total s counter
      = (Except.ok
           { scenario_id := s.scenario_id,
             scenario_description := s.description, winner_id := "error",
             reasoning := "Error: " ++ e, processing_time := 0 },
         counter + 1 + 1, [(counter + 1, total), (counter + 1 + 1, total)]) := by
  unfold process_scenario
  rw [hllm, hcb1, hcb2]
  rfl

/-- Witness for C10: oracle succeeds, callback raises `cb-boom` on count 1
and returns normally on count 2. -/
theorem callback_failure_double_increment_witness :
    (fun _ : TestScenario => (Except.ok (RankingResponse.mk "A" "r")
        : Except String RankingResponse)) ⟨"s1", "d"⟩
      = Except.ok (RankingResponse.mk "A" "r") ∧
    (fun a _ : Nat => if a = 1 then (Except.error "cb-boom" : Except String Unit)
        else Except.ok ()) (0 + 1) 1 = Except.error "cb-boom" ∧
    (fun a _ : Nat => if a = 1 then (Except.error "cb-boom" : Except String Unit)
        else Except.ok ()) (0 + 1 + 1) 1 = Except.ok () ∧
    process_scenario
        (fun _ : TestScenario => (Except.ok (RankingResponse.mk "A" "r")
          : Except String RankingResponse))
        (fun _ => 7)
        (fun a _ : Nat => if a = 1 then (Except.error "cb-boom" : Except String Unit)
          else Except.ok ())
        1 ⟨"s1", "d"⟩ 0
      = (Except.ok
           { scenario_id := "s1", scenario_description := "d",
             winner_id := "error", reasoning := "Error: " ++ "cb-boom",
             processing_time := 0 },
         0 + 1 + 1, [(0 + 1, 1), (0 + 1 + 1, 1)]) :=
  ⟨rfl, rfl, rfl,
   callback_failure_double_increment
     (fun _ : TestScenario => (Except.ok (RankingResponse.mk "A" "r")
       : Except String RankingResponse))
     (fun _ => 7)
     (fun a _ : Nat => if a = 1 then (Except.error "cb-boom" : Except String Unit)
       else Except.ok ())
     1 ⟨"s1", "d"⟩ 0 (RankingResponse.mk "A" "r") "cb-boom" rfl rfl rfl⟩

end RankingSys

namespace RankingSys

/-- C1: Task lifecycle transitions are monotonic and one-directional: once
`update_status` has moved a record into a terminal status (completed or
failed), no subsequent `update_status` call may change its status again.
The code does not protect terminal states: evaluating `update_status` on a
store holding task "t" in status `completed` with a request for `pending`
yields status `pending` again — the terminal state is left. -/
theorem update_status_leaves_terminal_state :
    (update_status
        [("t", update_status_record freshTaskRecord TaskStatus.completed (some "R") none "T1")]
        "t" TaskStatus.pending none none "T2")
      = [("t", { status := TaskStatus.pending, result := some "R",
                 error := none, completed_at := some "T1" })] ∧
    (update_status_record freshTaskRecord TaskStatus.completed (some "R") none "T1").status
      = TaskStatus.completed := by
  constructor <;> rfl

end RankingSys

namespace RankingSys

/-! ## Candidate-serialization truncation (`LLMService._truncate_candidates`)

When the first-pass serialization exceeds the token threshold, the second
pass rebuilds each candidate's line from `cand.id` and `cand.name` verbatim
and an `info_copy` in which only a present string `description` is replaced
by `info_copy['description'][:200] + "...(truncated)"`.  Python string
slicing is character-based; Lean strings carry their character list in
`data`. -/

/-- The per-description truncation step:
`description[:200] + "...(truncated)"`. -/
def truncateDescription (d : String) : String :=
  String.mk (d.data.take 200 ++ "...(truncated)".data)

/-- The second-pass transformation of one candidate's `info_copy`: only a
present `description` is replaced; `category`, `price`, `currency` and all
extra keys are untouched. -/
def truncateInfo (info : CandidateInfo) : CandidateInfo :=
  match info.description with
  | some d => { info with description := some (truncateDescription d) }
  | none => info

/-- The second pass on one candidate: `id` and `name` are reprinted
verbatim, the info bag is rebuilt by `truncateInfo`. -/
def truncateCandidate (c : Candidate) : Candidate :=
  { c with info := truncateInfo c.info }

theorem truncateDescription_length (d : String) :
    (truncateDescription d).length = min 200 d.length + 14 := by
  show (d.data.take 200 ++ "...(truncated)".data).length = min 200 d.data.length + 14
  rw [List.length_append, List.length_take]
  have hm : ("...(truncated)".data).length = 14 := by decide
  rw [hm]

/-- C6 (counterexample): re-truncating an already-truncated description can
grow it.  The one-character description `"a"` truncates to a 15-character
string; truncating that result again appends the marker a second time,
yielding 29 characters — strictly longer. -/
theorem truncation_grows_short_description :
    (truncateDescription (truncateDescription "a")).length = 29 ∧
    (truncateDescription "a").length = 15 ∧
    (truncateDescription "a").length < (truncateDescription (truncateDescription "a")).length := by
  have h1 : ("a" : String).length = 1 := by decide
  rw [truncateDescription_length, truncateDescription_length, h1]
  omega

/-- C6 (amended): truncation never alters the structural fields `id`,
`name`, `category`, `price` (nor `currency` or the extra attributes) — only
the description is rewritten; and re-truncation does not grow the
truncation of any description of at least 200 characters (its length is the
fixed point 214).  For shorter descriptions, re-truncation appends the
marker again and grows the text. -/
theorem truncation_preserves_structure (c : Candidate) (d : String)
    (hd : 200 ≤ d.length) :
    (truncateCandidate c).id = c.id ∧
    (truncateCandidate c).name = c.name ∧
    (truncateCandidate c).info.category = c.info.category ∧
    (truncateCandidate c).info.price = c.info.price ∧
    (truncateCandidate c).info.currency = c.info.currency ∧
    (truncateCandidate c).info.extra = c.info.extra ∧
    (truncateDescription (truncateDescription d)).length
      = (truncateDescription d).length := by
  refine ⟨?_, ?_, ?_, ?_, ?_, ?_, ?_⟩
  · rfl
  · rfl
  · cases hdes : c.info.description <;> simp [truncateCandidate, truncateInfo, hdes]
  · cases hdes : c.info.description <;> simp [truncateCandidate, truncateInfo, hdes]
  · cases hdes : c.info.description <;> simp [truncateCandidate, truncateInfo, hdes]
  · cases hdes : c.info.description <;> simp [truncateCandidate, truncateInfo, hdes]
  · rw [truncateDescription_length, truncateDescription_length]
    omega

/-- Witness for C6: a candidate with every info field populated and a
200-character description. -/
theorem truncation_preserves_structure_witness :
    200 ≤ (String.mk (List.replicate 200 'x')).length ∧
    ((truncateCandidate ⟨"A", "Alpha",
        ⟨some "cat", some 5, some "CNY", some "desc", [("k", "v")]⟩⟩).id = "A" ∧
     (truncateCandidate ⟨"A", "Alpha",
        ⟨some "cat", some 5, some "CNY", some "desc", [("k", "v")]⟩⟩).name = "Alpha" ∧
     (truncateCandidate ⟨"A", "Alpha",
        ⟨some "cat", some 5, some "CNY", some "desc", [("k", "v")]⟩⟩).info.category
        = (⟨some "cat", some 5, some "CNY", some "desc", [("k", "v")]⟩
            : CandidateInfo).category ∧
     (truncateCandidate ⟨"A", "Alpha",
        ⟨some "cat", some 5, some "CNY", some "desc", [("k", "v")]⟩⟩).info.price
        = (⟨some "cat", some 5, some "CNY", some "desc", [("k", "v")]⟩
            : CandidateInfo).price ∧
     (truncateCandidate ⟨"A", "Alpha",
        ⟨some "cat", some 5, some "CNY", some "desc", [("k", "v")]⟩⟩).info.currency
        = (⟨some "cat", some 5, some "CNY", some "desc", [("k", "v")]⟩
            : CandidateInfo).currency ∧
     (truncateCandidate ⟨"A", "Alpha",
        ⟨some "cat", some 5, some "CNY", some "desc", [("k", "v")]⟩⟩).info.extra
        = (⟨some "cat", some 5, some "CNY", some "desc", [("k", "v")]⟩
            : CandidateInfo).extra ∧
     (truncateDescription (truncateDescription (String.mk (List.replicate 200 'x')))).length
        = (truncateDescription (String.mk (List.replicate 200 'x'))).length) :=
  ⟨by
     show 200 ≤ (List.replicate 200 'x').length
     rw [List.length_replicate],
   truncation_preserves_structure
     ⟨"A", "Alpha", ⟨some "cat", some 5, some "CNY", some "desc", [("k", "v")]⟩⟩
     (String.mk (List.replicate 200 'x'))
     (by
       show 200 ≤ (List.replicate 200 'x').length
       rw [List.length_replicate])⟩

end RankingSys

namespace RankingSys

/-! ## Webhook notifier (`app/services/webhook_service.py`)

`WebhookService.send_notification` loops `for attempt in range(self.max_retries)`
(`max_retries = 3`): a POST whose status code is in the literal list
`[200, 201, 202, 204]` returns `True` at once; any other status code,
`httpx.TimeoutException`, or other exception is logged, and if
`attempt < max_retries - 1` the loop sleeps `2 ** attempt` seconds before
the next attempt; after the loop the function returns `False`.  The
embedding passes the outcome of each POST in as `outcome n`. -/

inductive HttpAttempt where
  | response (code : Nat)
  | timeout
  | transportError (msg : String)
deriving DecidableEq, Repr

/-- Whether one POST attempt counts as delivered:
`response.status_code in [200, 201, 202, 204]`.  A timeout or transport
error is caught and never counts. -/
def attemptDelivered (a : HttpAttempt) : Bool :=
  match a with
  | .response code => [200, 201, 202, 204].contains code
  | .timeout => false
  | .transportError _ => false

/-- The retry loop: `attempt` is the 0-based POST index, `fuel` the number
of loop iterations remaining.  Returns (delivered, attempts made, sleeps
performed). -/
def sendAux (outcome : Nat → HttpAttempt) : Nat → Nat → Bool × Nat × List Nat
  | attempt, 0 => (false, attempt, [])
  | attempt, fuel + 1 =>
      if attemptDelivered (outcome attempt) then (true, attempt + 1, [])
      else
        match fuel with
        | 0 => (false, attempt + 1, [])
        | _ + 1 =>
            match sendAux outcome (attempt + 1) fuel with
            | (b, n, sleeps) => (b, n, 2 ^ attempt :: sleeps)

/-- `WebhookService.send_notification` with the default `max_retries = 3`. -/
def send_notification (outcome : Nat → HttpAttempt) : Bool × Nat × List Nat :=
  sendAux outcome 0 3

/-- The async task executors (`app/api/v1/endpoints/batch_ranking.py`,
`ranking.py`): after writing the terminal status into the task store they
fire the webhook; the webhook outcome is not consulted. -/
def finish_task_and_notify (store : MemoryStore) (task_id : String)
    (status : TaskStatus) (result : Option String) (error : Option String)
    (now : String) (outcome : Nat → HttpAttempt) :
    MemoryStore × (Bool × Nat × List Nat) :=
  (update_status store task_id status result error now, send_notification outcome)

/-- C7 (counterexample): a `203 Non-Authoritative Information` response is
a 2xx status, yet the notifier does not stop: it retries all 3 attempts
(backing off 1 then 2 seconds) and reports failure, refuting "any 2xx
response stops retrying and reports success". -/
theorem send_notification_rejects_203 :
    send_notification (fun _ => HttpAttempt.response 203) = (false, 3, [1, 2]) ∧
    200 ≤ 203 ∧ 203 < 300 := by
  refine ⟨rfl, by decide, by decide⟩

/-- C7 (amended): webhook delivery makes at most 3 POST attempts; an
attempt whose status code is in `{200, 201, 202, 204}` stops retrying and
reports success; any other response, timeout, or transport error leads to a
`2 ^ attempt`-second backoff before the next attempt; after exhausting all
attempts only `False` is reported — and the owning task's stored status,
written before the webhook fires, is the same whatever the webhook
outcomes are. -/
theorem send_notification_policy (outcome : Nat → HttpAttempt) :
    send_notification outcome
      = (if attemptDelivered (outcome 0) then (true, 1, [])
         else if attemptDelivered (outcome 1) then (true, 2, [1])
         else if attemptDelivered (outcome 2) then (true, 3, [1, 2])
         else (false, 3, [1, 2])) ∧
    (send_notification outcome).2.1 ≤ 3 ∧
    (∀ (store : MemoryStore) (task_id : String) (status : TaskStatus)
        (result error : Option String) (now : String)
        (outcome2 : Nat → HttpAttempt),
      (finish_task_and_notify store task_id status result error now outcome).1
        = (finish_task_and_notify store task_id status result error now outcome2).1) := by
  refine ⟨?_, ?_, ?_⟩
  · unfold send_notification
    by_cases h0 : attemptDelivered (outcome 0) <;>
      by_cases h1 : attemptDelivered (outcome 1) <;>
        by_cases h2 : attemptDelivered (outcome 2) <;>
          simp [sendAux, h0, h1, h2]
  · unfold send_notification
    by_cases h0 : attemptDelivered (outcome 0) <;>
      by_cases h1 : attemptDelivered (outcome 1) <;>
        by_cases h2 : attemptDelivered (outcome 2) <;>
          simp [sendAux, h0, h1, h2]
  · intro store task_id status result error now outcome2
    rfl

end RankingSys

namespace RankingSys

/-! ## Scenario generator (`app/services/prompt_generator.py`)

`PromptGeneratorService._generate_auto` calls the oracle; on success it
parses the reply, reads `data.get("scenarios", [])`, and builds one
`TestScenario` per item, with `item.get("scenario_id", f"s_{len+1}")` and
`item.get("description", "")` defaults.  Any exception (API failure or
`json.loads` failure) falls back to `_fallback_scenarios(num_scenarios)`.
A missing `"scenarios"` key is the success case with the empty list.  The
embedding passes the generation outcome in as data: either an exception or
the parsed item list, each item being its optional `scenario_id` and
optional `description`. -/

inductive GenOutcome where
  | failure (e : String)
  | success (items : List (Option String × Option String))
deriving Repr

/-- `PromptGeneratorService._fallback_scenarios`. -/
def fallback_scenarios (count : Nat) : List TestScenario :=
  (List.range count).map (fun i =>
    { scenario_id := "fallback_" ++ toString i,
      description := "这是一个通用的测试场景 " ++ toString (i + 1) ++ "，请比较这些选项的优劣。" })

/-- The success-path loop: one scenario per parsed item, positional id
fallback `s_<n>` (1-based over scenarios built so far) and empty-string
description fallback. -/
def buildScenariosAux : List (Option String × Option String) → Nat → List TestScenario
  | [], _ => []
  | (sid, desc) :: rest, n =>
      { scenario_id := sid.getD ("s_" ++ toString (n + 1)),
        description := desc.getD "" } :: buildScenariosAux rest (n + 1)

/-- `PromptGeneratorService._generate_auto`. -/
def generate_auto (count : Nat) (outcome : GenOutcome) : List TestScenario :=
  match outcome with
  | .success items => buildScenariosAux items 0
  | .failure _ => fallback_scenarios count

theorem buildScenariosAux_length :
    ∀ (items : List (Option String × Option String)) (n : Nat),
      (buildScenariosAux items n).length = items.length := by
  intro items
  induction items with
  | nil => intro n; rfl
  | cons item rest ih =>
    intro n
    obtain ⟨sid, desc⟩ := item
    simp [buildScenariosAux, ih]

/-- The fallback description is never the empty string. -/
theorem fallback_description_ne_empty (i : Nat) :
    ("这是一个通用的测试场景 " ++ toString (i + 1) ++ "，请比较这些选项的优劣。" : String) ≠ "" := by
  intro h
  have hl := congrArg String.length h
  rw [String.length_append, String.length_append] at hl
  have h1 : ("这是一个通用的测试场景 " : String).length = 12 := by decide
  have h2 : ("，请比较这些选项的优劣。" : String).length = 12 := by decide
  have h3 : ("" : String).length = 0 := by decide
  omega

/-- C8 (counterexample): a successful oracle reply whose parsed
`"scenarios"` list is empty makes `generate_auto` return 0 scenarios when 5
were requested — cardinality is not enforced on the success path. -/
theorem generate_auto_success_count_unchecked :
    generate_auto 5 (GenOutcome.success []) = [] ∧
    (generate_auto 5 (GenOutcome.success [])).length ≠ 5 := by
  refine ⟨rfl, by decide⟩

/-- C8 (amended): on any generation or decode failure the generator
returns the deterministic fallback list of exactly the requested count,
the `n`-th scenario having id `fallback_<n>` and a non-empty generic
description; on the success path, however, the generator returns one
scenario per item the oracle produced, with no cardinality check against
the requested count. -/
theorem generate_auto_fallback_cardinality (count : Nat) (e : String)
    (items : List (Option String × Option String)) :
    (generate_auto count (GenOutcome.failure e)).length = count ∧
    (∀ s ∈ generate_auto count (GenOutcome.failure e), ∃ i : Nat, i < count ∧
        s = { scenario_id := "fallback_" ++ toString i,
              description := "这是一个通用的测试场景 " ++ toString (i + 1)
                ++ "，请比较这些选项的优劣。" } ∧
        s.description ≠ "") ∧
    (generate_auto count (GenOutcome.success items)).length = items.length := by
  refine ⟨?_, ?_, ?_⟩
  · simp [generate_auto, fallback_scenarios]
  · intro s hs
    simp only [generate_auto, fallback_scenarios, List.mem_map, List.mem_range] at hs
    obtain ⟨i, hi, hsi⟩ := hs
    refine ⟨i, hi, hsi.symm, ?_⟩
    rw [← hsi]
    exact fallback_description_ne_empty i
  · exact buildScenariosAux_length items 0

/-- Witness for C8: five scenarios requested under failure, five returned;
an empty success item list yields zero. -/
theorem generate_auto_fallback_cardinality_witness :
    (generate_auto 5 (GenOutcome.failure "connection refused")).length = 5 ∧
    (∀ s ∈ generate_auto 5 (GenOutcome.failure "connection refused"), ∃ i : Nat, i < 5 ∧
        s = { scenario_id := "fallback_" ++ toString i,
              description := "这是一个通用的测试场景 " ++ toString (i + 1)
                ++ "，请比较这些选项的优劣。" } ∧
        s.description ≠ "") ∧
    (generate_auto 5 (GenOutcome.success ([] : List (Option String × Option String)))).length
      = ([] : List (Option String × Option String)).length :=
  generate_auto_fallback_cardinality 5 "connection refused" []

end RankingSys
